import Mathlib

/-!
Shallow embedding of the query-intent builder and transport of the
BookHarmony repository (the Supabase backend-proxy SDK, `QueryBuilder`
and the `supabase.from` entry point).

JavaScript records built by insertion are modelled as association lists
`List (String × JsonValue)` in insertion order; `JSON.stringify` drops
keys whose value is `undefined`, so fields assigned an undefined value
are simply not emitted.  Machine behaviour that the SDK observes from
the host (the outcome of `fetch`, the stored session record, the
process configuration) is passed in explicitly.
-/

/-- A JSON value, the model of the TS `unknown` values that flow into
filters, insert/update payloads and response bodies. -/
inductive JsonValue where
  | null : JsonValue
  | bool : Bool → JsonValue
  | num : Int → JsonValue
  | str : String → JsonValue
  | arr : List JsonValue → JsonValue
  | obj : List (String × JsonValue) → JsonValue

/-- The filter operator union type
`'eq' | 'neq' | 'gt' | 'gte' | 'lt' | 'lte' | 'like' | 'ilike' | 'in' | 'is'`. -/
inductive FilterOp where
  | eq | neq | gt | gte | lt | lte | like | ilike | inOp | isOp
deriving DecidableEq, Repr

/-- The operator's wire name, the string literal stored in the TS object. -/
def FilterOp.name : FilterOp → String
  | .eq => "eq"
  | .neq => "neq"
  | .gt => "gt"
  | .gte => "gte"
  | .lt => "lt"
  | .lte => "lte"
  | .like => "like"
  | .ilike => "ilike"
  | .inOp => "in"
  | .isOp => "is"

/-- `interface QueryFilter { column; operator; value }`. -/
structure QueryFilter where
  column : String
  operator : FilterOp
  value : JsonValue

/-- `interface QueryOrder { column; ascending? }`; `order()` always
resolves the flag (`options?.ascending ?? true`) before pushing. -/
structure QueryOrder where
  column : String
  ascending : Bool
deriving DecidableEq, Repr

/-- The operation union type `'select' | 'insert' | 'update' | 'delete'`. -/
inductive Operation where
  | select | insert | update | delete
deriving DecidableEq, Repr

/-- The operation's wire name. -/
def Operation.name : Operation → String
  | .select => "select"
  | .insert => "insert"
  | .update => "update"
  | .delete => "delete"

/-- The private mutable state of `class QueryBuilder`, with the field
initialisers of the TS class as default values. -/
structure QueryBuilder where
  tableName : String
  selectClause : String := "*"
  filtersList : List QueryFilter := []
  orderList : List QueryOrder := []
  limitValue : Option Int := none
  offsetValue : Option Int := none
  singleMode : Bool := false
  operation : Option Operation := none
  insertValues : Option (List (List (String × JsonValue))) := none
  updateValues : Option (List (String × JsonValue)) := none

namespace QueryBuilder

/-- `select(columns = '*')`: sets the column selector and mode. -/
def select (b : QueryBuilder) (columns : String := "*") : QueryBuilder :=
  { b with selectClause := columns, operation := some .select }

/-- `eq(column, value)`. -/
def eq (b : QueryBuilder) (column : String) (value : JsonValue) : QueryBuilder :=
  { b with filtersList := b.filtersList ++ [⟨column, .eq, value⟩] }

/-- `neq(column, value)`. -/
def neq (b : QueryBuilder) (column : String) (value : JsonValue) : QueryBuilder :=
  { b with filtersList := b.filtersList ++ [⟨column, .neq, value⟩] }

/-- `gt(column, value)`. -/
def gt (b : QueryBuilder) (column : String) (value : JsonValue) : QueryBuilder :=
  { b with filtersList := b.filtersList ++ [⟨column, .gt, value⟩] }

/-- `gte(column, value)`. -/
def gte (b : QueryBuilder) (column : String) (value : JsonValue) : QueryBuilder :=
  { b with filtersList := b.filtersList ++ [⟨column, .gte, value⟩] }

/-- `lt(column, value)`. -/
def lt (b : QueryBuilder) (column : String) (value : JsonValue) : QueryBuilder :=
  { b with filtersList := b.filtersList ++ [⟨column, .lt, value⟩] }

/-- `lte(column, value)`. -/
def lte (b : QueryBuilder) (column : String) (value : JsonValue) : QueryBuilder :=
  { b with filtersList := b.filtersList ++ [⟨column, .lte, value⟩] }

/-- `like(column, value)`. -/
def like (b : QueryBuilder) (column : String) (value : String) : QueryBuilder :=
  { b with filtersList := b.filtersList ++ [⟨column, .like, .str value⟩] }

/-- `ilike(column, value)`. -/
def ilike (b : QueryBuilder) (column : String) (value : String) : QueryBuilder :=
  { b with filtersList := b.filtersList ++ [⟨column, .ilike, .str value⟩] }

/-- `in(column, values)` (named `inOp` here because `in` is a Lean keyword):
pushes the whole value array as the filter value. -/
def inOp (b : QueryBuilder) (column : String) (values : List JsonValue) : QueryBuilder :=
  { b with filtersList := b.filtersList ++ [⟨column, .inOp, .arr values⟩] }

/-- `is(column, value)`: the TS signature restricts the value to `null`. -/
def isOp (b : QueryBuilder) (column : String) : QueryBuilder :=
  { b with filtersList := b.filtersList ++ [⟨column, .isOp, .null⟩] }

/-- `order(column, options?)`: `ascending` defaults to `true` when the
options object or the flag is omitted. -/
def order (b : QueryBuilder) (column : String) (ascending : Option Bool := none) : QueryBuilder :=
  { b with orderList := b.orderList ++ [⟨column, ascending.getD true⟩] }

/-- `limit(count)`. -/
def limit (b : QueryBuilder) (count : Int) : QueryBuilder :=
  { b with limitValue := some count }

/-- `offset(count)`. -/
def offset (b : QueryBuilder) (count : Int) : QueryBuilder :=
  { b with offsetValue := some count }

/-- `single()`. -/
def single (b : QueryBuilder) : QueryBuilder :=
  { b with singleMode := true }

/-- `insert(values)`: sets mode to insert and normalises a single record
into a one-element array (`Array.isArray(values) ? values : [values]`). -/
def insert (b : QueryBuilder) (values : List (String × JsonValue) ⊕ List (List (String × JsonValue))) :
    QueryBuilder :=
  { b with operation := some .insert,
           insertValues := some (match values with
             | .inl v => [v]
             | .inr vs => vs) }

/-- `update(values)`: sets mode to update and stores the record. -/
def update (b : QueryBuilder) (values : List (String × JsonValue)) : QueryBuilder :=
  { b with operation := some .update, updateValues := some values }

/-- `delete()`: sets mode to delete. -/
def delete (b : QueryBuilder) : QueryBuilder :=
  { b with operation := some .delete }

end QueryBuilder

/-- `supabase.from(table)`: constructs a fresh builder. -/
def supabaseFrom (table : String) : QueryBuilder :=
  { tableName := table }

/-- Wire form of one filter, `{ column, operator, value }` in the push
order of the TS object literal. -/
def filterToJson (f : QueryFilter) : JsonValue :=
  .obj [("column", .str f.column), ("operator", .str f.operator.name), ("value", f.value)]

/-- Wire form of one ordering directive, `{ column, ascending }`. -/
def orderToJson (o : QueryOrder) : JsonValue :=
  .obj [("column", .str o.column), ("ascending", .bool o.ascending)]

/-- The request body that `execute` builds and `JSON.stringify` serialises,
as an association list in insertion order.  Keys whose TS value would be
`undefined` (`limit`, `offset`, absent `values`) are dropped, matching
`JSON.stringify`.  The select-mode branch also covers an unset operation
(`this.operation || 'select'`); the truthiness test `if (this.selectClause)`
on a string is an emptiness test. -/
def QueryBuilder.buildPayload (b : QueryBuilder) : List (String × JsonValue) :=
  [("table", .str b.tableName),
   ("operation", .str ((b.operation.getD .select).name))]
  ++
  match b.operation with
  | some .insert =>
      (match b.insertValues with
       | some vs => [("values", .arr (vs.map JsonValue.obj))]
       | none => [])
      ++ (if b.selectClause = "" then [] else [("select", .str b.selectClause)])
  | some .update =>
      (match b.updateValues with
       | some v => [("values", .obj v)]
       | none => [])
      ++ [("filters", .arr (b.filtersList.map filterToJson))]
      ++ (if b.selectClause = "" then [] else [("select", .str b.selectClause)])
  | some .delete =>
      [("filters", .arr (b.filtersList.map filterToJson))]
  | _ =>
      [("select", .str (if b.selectClause = "" then "*" else b.selectClause)),
       ("filters", .arr (b.filtersList.map filterToJson)),
       ("order", .arr (b.orderList.map orderToJson))]
      ++ (match b.limitValue with
          | some n => [("limit", JsonValue.num n)]
          | none => [])
      ++ (match b.offsetValue with
          | some n => [("offset", JsonValue.num n)]
          | none => [])
      ++ [("single", .bool b.singleMode)]

/-- The two values `execute` reads from `import.meta.env` on each call:
`VITE_PROJECT_ID` and `VITE_ANYX_SERVER_URL`.  Vite env entries are
strings or `undefined`. -/
structure Env where
  projectId : Option String
  backendUrl : Option String
deriving DecidableEq, Repr

/-- JS falsiness of an env entry: `undefined` or the empty string
(`if (!projectId)`). -/
def envMissing : Option String → Bool
  | none => true
  | some s => s = ""

/-- The item stored under `localStorage` key `anyx.auth.session`, after
the `JSON.parse` attempt: either unparseable (the `catch (e)` branch,
logged and tolerated) or a parsed record whose `access_token` field may
be absent (or present; an empty-string token is falsy and treated like
an absent one by the `if (session.access_token)` guard). -/
inductive StoredSession where
  | malformed
  | parsed (accessToken : Option String)
deriving DecidableEq, Repr

/-- The headers contributed by the stored session: `Authorization` is set
exactly when the record parses and holds a truthy `access_token`. -/
def sessionAuthHeader : Option StoredSession → List (String × String)
  | some (.parsed (some t)) => if t = "" then [] else [("Authorization", "Bearer " ++ t)]
  | _ => []

/-- An exception thrown by the host `fetch` pipeline, characterised by
the two features the SDK inspects: whether it is a `TypeError` and its
`message` text. -/
structure FetchError where
  isTypeError : Bool
  message : String
deriving DecidableEq, Repr

/-- The outcome of the `fetch` call: either a response (with status,
statusText and the result of `response.json()`, which may itself throw)
or the fetch failing outright — the network-level case where the request
never completes (DNS, CORS, connection refused). -/
inductive FetchOutcome where
  | response (status : Nat) (statusText : String) (body : Except FetchError JsonValue)
  | failure (e : FetchError)

/-- The message of the network-failure `Error` thrown by the SDK. -/
def networkErrorMessage : String :=
  "Unable to connect to the server. Please check your internet connection and try again. If the problem persists, the service may be temporarily unavailable."

/-- The rejections `execute` can produce, one constructor per `throw`
site of the source (plus `rethrown` for the final `throw error`
pass-through of the outer catch). -/
inductive ExecError where
  | missingProjectId
  | missingServerUrl
  | sessionExpired
  | queryFailed (message : String)
  | network
  | rethrown (e : FetchError)
deriving DecidableEq, Repr

/-- The `message` of the `Error` surfaced to the caller for each
rejection. -/
def ExecError.message : ExecError → String
  | .missingProjectId =>
      "Database configuration error: Missing project ID. Please check your environment variables."
  | .missingServerUrl =>
      "Database configuration error: Missing server URL. Please check your environment variables."
  | .sessionExpired => "Session expired. Please sign in again."
  | .queryFailed m => m
  | .network => networkErrorMessage
  | .rethrown e => e.message

/-- JS truthiness of a parsed JSON value (objects and arrays are always
truthy). -/
def jsTruthy : JsonValue → Bool
  | .null => false
  | .bool b => b
  | .num n => n != 0
  | .str s => s != ""
  | .arr _ => true
  | .obj _ => true

/-- Property access on a parsed JSON value: yields a field of an object,
`undefined` otherwise.  Parsed objects are modelled with unique keys. -/
def jsonField (v : JsonValue) (key : String) : Option JsonValue :=
  match v with
  | .obj kvs => List.lookup key kvs
  | _ => none

mutual

/-- JS `String(x)` coercion applied when a non-string error field lands in
`new Error(errorMessage)` (arrays join their coerced elements with commas,
a `null` element coercing to the empty string). -/
def jsString : JsonValue → String
  | .null => "null"
  | .bool b => if b then "true" else "false"
  | .num n => toString n
  | .str s => s
  | .arr vs => jsStringJoin vs
  | .obj _ => "[object Object]"
termination_by v => sizeOf v

/-- Comma join of coerced array elements for `jsString`. -/
def jsStringJoin : List JsonValue → String
  | [] => ""
  | .null :: [] => ""
  | v :: [] => jsString v
  | .null :: vs => "," ++ jsStringJoin vs
  | v :: vs => jsString v ++ "," ++ jsStringJoin vs
termination_by vs => sizeOf vs

end

/-- `errorMessage = error.error || error.message || 'Query failed'` with
the `catch` fallback `HTTP status: statusText` when the error body does
not parse as JSON. -/
def extractErrorMessage (status : Nat) (statusText : String)
    (body : Except FetchError JsonValue) : String :=
  match body with
  | .error _ => "HTTP " ++ toString status ++ ": " ++ statusText
  | .ok v =>
      match jsonField v "error" with
      | some ev =>
          if jsTruthy ev then jsString ev
          else match jsonField v "message" with
               | some mv => if jsTruthy mv then jsString mv else "Query failed"
               | none => "Query failed"
      | none =>
          match jsonField v "message" with
          | some mv => if jsTruthy mv then jsString mv else "Query failed"
          | none => "Query failed"

/-- One dispatched HTTP request: a POST of the JSON body to the query
endpoint with the computed headers. -/
structure Request where
  url : String
  headers : List (String × String)
  body : List (String × JsonValue)

/-- The externally visible side effects of one `execute` call. -/
structure Effects where
  requests : List Request := []
  sessionRemoved : Bool := false
  authEventsDispatched : Nat := 0
  redirectedTo : Option String := none

/-- Result of one `execute` call: the settled promise plus effects. -/
structure ExecResult where
  outcome : Except ExecError JsonValue
  effects : Effects

/-- `execute()`: validates the two env values on every call (before any
network activity), builds the payload and headers, dispatches the fetch
and classifies the outcome.  The host-dependent inputs (env, stored
session, fetch behaviour) are explicit arguments; `fetched` is what the
single `fetch` call would do if issued. -/
def QueryBuilder.execute (b : QueryBuilder) (env : Env) (stored : Option StoredSession)
    (fetched : FetchOutcome) : ExecResult :=
  if envMissing env.projectId then
    { outcome := .error .missingProjectId, effects := {} }
  else if envMissing env.backendUrl then
    { outcome := .error .missingServerUrl, effects := {} }
  else
    let headers := ("Content-Type", "application/json") :: sessionAuthHeader stored
    let url := env.backendUrl.getD "" ++ "/api/projects/" ++ env.projectId.getD "" ++ "/query"
    let req : Request := ⟨url, headers, b.buildPayload⟩
    match fetched with
    | .failure e =>
        if e.isTypeError && e.message == "Failed to fetch" then
          { outcome := .error .network, effects := { requests := [req] } }
        else
          { outcome := .error (.rethrown e), effects := { requests := [req] } }
    | .response status statusText body =>
        if 200 ≤ status ∧ status ≤ 299 then
          match body with
          | .ok v => { outcome := .ok v, effects := { requests := [req] } }
          | .error e =>
              if e.isTypeError && e.message == "Failed to fetch" then
                { outcome := .error .network, effects := { requests := [req] } }
              else
                { outcome := .error (.rethrown e), effects := { requests := [req] } }
        else if status = 401 ∨ status = 403 then
          { outcome := .error .sessionExpired,
            effects := { requests := [req], sessionRemoved := true,
                         authEventsDispatched := 1, redirectedTo := some "/auth" } }
        else
          { outcome := .error (.queryFailed (extractErrorMessage status statusText body)),
            effects := { requests := [req] } }

/-- `then(onfulfilled, onrejected)`: delegates to a fresh `execute()` call
and settles with the corresponding handler's value. -/
def QueryBuilder.thenMethod {α : Type} (b : QueryBuilder) (env : Env)
    (stored : Option StoredSession) (fetched : FetchOutcome)
    (onfulfilled : JsonValue → α) (onrejected : ExecError → α) : α × Effects :=
  let r := b.execute env stored fetched
  (match r.outcome with
   | .ok v => onfulfilled v
   | .error e => onrejected e,
   r.effects)

/-- `catch(onrejected)`: delegates to a fresh `execute()` call; a
fulfilled value passes through, a rejection settles with the handler's
value. -/
def QueryBuilder.catchMethod {α : Type} (b : QueryBuilder) (env : Env)
    (stored : Option StoredSession) (fetched : FetchOutcome)
    (onrejected : ExecError → α) : (JsonValue ⊕ α) × Effects :=
  let r := b.execute env stored fetched
  (match r.outcome with
   | .ok v => .inl v
   | .error e => .inr (onrejected e),
   r.effects)

/-- `finally(onfinally)`: delegates to a fresh `execute()` call; the
callback takes no argument and the settled outcome passes through
unchanged. -/
def QueryBuilder.finallyMethod (b : QueryBuilder) (env : Env)
    (stored : Option StoredSession) (fetched : FetchOutcome) : ExecResult :=
  b.execute env stored fetched

/-- `await builder`: the host awaits the thenable by calling `then` with
the promise's resolve/reject continuations, so the awaited value is the
settled outcome of the delegated `execute()` call. -/
def QueryBuilder.awaited (b : QueryBuilder) (env : Env) (stored : Option StoredSession)
    (fetched : FetchOutcome) : ExecResult :=
  let p := b.thenMethod env stored fetched Except.ok Except.error
  ⟨p.1, p.2⟩

/-- With both configuration values present, every execution issues exactly
one request: the POST of the built payload to the query endpoint with the
computed headers, whatever the transport outcome. -/
lemma execute_requests_eq (b : QueryBuilder) (env : Env) (stored : Option StoredSession)
    (fetched : FetchOutcome)
    (hp : envMissing env.projectId = false) (hu : envMissing env.backendUrl = false) :
    (b.execute env stored fetched).effects.requests
      = [⟨env.backendUrl.getD "" ++ "/api/projects/" ++ env.projectId.getD "" ++ "/query",
          ("Content-Type", "application/json") :: sessionAuthHeader stored,
          b.buildPayload⟩] := by
  unfold QueryBuilder.execute
  rw [if_neg (by simp [hp]), if_neg (by simp [hu])]
  cases fetched with
  | failure e =>
      by_cases hc : (e.isTypeError && e.message == "Failed to fetch") = true <;>
        simp [hc]
  | response status statusText body =>
      by_cases hok : 200 ≤ status ∧ status ≤ 299
      · cases body with
        | ok v => simp [hok]
        | error e =>
            by_cases hc : (e.isTypeError && e.message == "Failed to fetch") = true <;>
              simp [hok, hc]
      · by_cases hauth : status = 401 ∨ status = 403 <;> simp [hok, hauth]

/-- C1: every filter operator call (`eq`, `neq`, `gt`, `gte`, `lt`, `lte`,
`like`, `ilike`, `in`, `is`) appends exactly one new filter entry with the
matching operator and the supplied column and value after all previously
added filters, preserving their order; and for select (including the
default unset mode), update and delete operations the accumulated list
appears unchanged as the request body's `filters` array. -/
theorem filter_ops_append_and_serialize (b : QueryBuilder) (c : String) (v : JsonValue)
    (s : String) (vs : List JsonValue) :
    ((b.eq c v).filtersList = b.filtersList ++ [⟨c, .eq, v⟩]
      ∧ (b.neq c v).filtersList = b.filtersList ++ [⟨c, .neq, v⟩]
      ∧ (b.gt c v).filtersList = b.filtersList ++ [⟨c, .gt, v⟩]
      ∧ (b.gte c v).filtersList = b.filtersList ++ [⟨c, .gte, v⟩]
      ∧ (b.lt c v).filtersList = b.filtersList ++ [⟨c, .lt, v⟩]
      ∧ (b.lte c v).filtersList = b.filtersList ++ [⟨c, .lte, v⟩]
      ∧ (b.like c s).filtersList = b.filtersList ++ [⟨c, .like, .str s⟩]
      ∧ (b.ilike c s).filtersList = b.filtersList ++ [⟨c, .ilike, .str s⟩]
      ∧ (b.inOp c vs).filtersList = b.filtersList ++ [⟨c, .inOp, .arr vs⟩]
      ∧ (b.isOp c).filtersList = b.filtersList ++ [⟨c, .isOp, .null⟩])
    ∧ (b.operation ≠ some .insert →
        List.lookup "filters" b.buildPayload
          = some (.arr (b.filtersList.map filterToJson))) := by
  refine ⟨⟨rfl, rfl, rfl, rfl, rfl, rfl, rfl, rfl, rfl, rfl⟩, fun h => ?_⟩
  rcases hop : b.operation with _ | op
  · simp [QueryBuilder.buildPayload, hop, List.lookup]
  · cases op with
    | select => simp [QueryBuilder.buildPayload, hop, List.lookup]
    | insert => exact absurd hop h
    | update =>
        rcases hv : b.updateValues with _ | w <;>
          simp [QueryBuilder.buildPayload, hop, hv, List.lookup]
    | delete => simp [QueryBuilder.buildPayload, hop, List.lookup]

/-- Witness for C1 at a fresh builder for "books". -/
theorem filter_ops_append_and_serialize_witness :
    (supabaseFrom "books").operation ≠ some Operation.insert
    ∧ List.lookup "filters" (supabaseFrom "books").buildPayload
        = some (.arr ((supabaseFrom "books").filtersList.map filterToJson)) :=
  ⟨by decide,
   (filter_ops_append_and_serialize (supabaseFrom "books") "id" (.num 1) "t%" []).2 (by decide)⟩

/-- C2: if the deployment identifier or the base service URL is missing
from the process configuration passed to an execution, that execution
rejects with the corresponding configuration error and dispatches no
request.  The check reads the configuration argument of the call itself,
so it is re-done on every execution. -/
theorem config_missing_rejects_without_request (b : QueryBuilder) (env : Env)
    (stored : Option StoredSession) (fetched : FetchOutcome)
    (h : envMissing env.projectId = true ∨ envMissing env.backendUrl = true) :
    ((b.execute env stored fetched).outcome = .error .missingProjectId
      ∨ (b.execute env stored fetched).outcome = .error .missingServerUrl)
    ∧ (b.execute env stored fetched).effects.requests = [] := by
  rcases hp : envMissing env.projectId with _ | _
  · have hu : envMissing env.backendUrl = true := by
      rcases h with h | h
      · rw [hp] at h; exact absurd h (by simp)
      · exact h
    unfold QueryBuilder.execute
    rw [if_neg (by simp [hp]), if_pos hu]
    exact ⟨Or.inr rfl, rfl⟩
  · unfold QueryBuilder.execute
    rw [if_pos hp]
    exact ⟨Or.inl rfl, rfl⟩

/-- Witness for C2: missing project id with a healthy transport. -/
theorem config_missing_rejects_without_request_witness :
    (envMissing (Env.mk none (some "https://s")).projectId = true
      ∨ envMissing (Env.mk none (some "https://s")).backendUrl = true)
    ∧ ((((supabaseFrom "books").execute ⟨none, some "https://s"⟩ none
            (.response 200 "OK" (.ok .null))).outcome = .error .missingProjectId
        ∨ ((supabaseFrom "books").execute ⟨none, some "https://s"⟩ none
            (.response 200 "OK" (.ok .null))).outcome = .error .missingServerUrl)
      ∧ ((supabaseFrom "books").execute ⟨none, some "https://s"⟩ none
            (.response 200 "OK" (.ok .null))).effects.requests = []) :=
  ⟨Or.inl rfl,
   config_missing_rejects_without_request (supabaseFrom "books") ⟨none, some "https://s"⟩ none
     (.response 200 "OK" (.ok .null)) (Or.inl rfl)⟩

/-- C3: when the response status is 401 or 403, the execution removes the
stored session record, broadcasts the session-invalidated notification
exactly once, redirects to the sign-in entry point `/auth`, and rejects
with the session-expired error, dispatching exactly one request (no
retry). -/
theorem auth_failure_terminal (b : QueryBuilder) (env : Env) (stored : Option StoredSession)
    (status : Nat) (statusText : String) (body : Except FetchError JsonValue)
    (hp : envMissing env.projectId = false) (hu : envMissing env.backendUrl = false)
    (hs : status = 401 ∨ status = 403) :
    (b.execute env stored (.response status statusText body)).outcome = .error .sessionExpired
    ∧ (b.execute env stored (.response status statusText body)).effects.sessionRemoved = true
    ∧ (b.execute env stored (.response status statusText body)).effects.authEventsDispatched = 1
    ∧ (b.execute env stored (.response status statusText body)).effects.redirectedTo = some "/auth"
    ∧ (b.execute env stored (.response status statusText body)).effects.requests.length = 1 := by
  unfold QueryBuilder.execute
  rw [if_neg (by simp [hp]), if_neg (by simp [hu])]
  rcases hs with rfl | rfl <;> simp

/-- Witness for C3 at a concrete 401 response. -/
theorem auth_failure_terminal_witness :
    envMissing (Env.mk (some "p") (some "https://s")).projectId = false
    ∧ envMissing (Env.mk (some "p") (some "https://s")).backendUrl = false
    ∧ (401 = 401 ∨ 401 = 403)
    ∧ ((supabaseFrom "books").execute ⟨some "p", some "https://s"⟩
          (some (.parsed (some "tok"))) (.response 401 "Unauthorized" (.ok .null))).outcome
        = .error .sessionExpired
    ∧ ((supabaseFrom "books").execute ⟨some "p", some "https://s"⟩
          (some (.parsed (some "tok"))) (.response 401 "Unauthorized" (.ok .null))).effects.sessionRemoved
        = true
    ∧ ((supabaseFrom "books").execute ⟨some "p", some "https://s"⟩
          (some (.parsed (some "tok"))) (.response 401 "Unauthorized" (.ok .null))).effects.authEventsDispatched
        = 1 := by
  have h := auth_failure_terminal (supabaseFrom "books") ⟨some "p", some "https://s"⟩
    (some (.parsed (some "tok"))) 401 "Unauthorized" (.ok .null)
    (by decide) (by decide) (Or.inl rfl)
  exact ⟨by decide, by decide, Or.inl rfl, h.1, h.2.1, h.2.2.1⟩

/-- C4 counterexample: the serialized body of a fresh builder for "books"
has no field named `collection`; the collection name travels under the
key `table`. -/
theorem body_has_no_collection_field :
    List.lookup "collection" (supabaseFrom "books").buildPayload = none
    ∧ List.lookup "table" (supabaseFrom "books").buildPayload = some (.str "books") :=
  ⟨rfl, rfl⟩

/-- C4 (amended): the serialized request body always contains a field
named `table` holding the collection name and a field named `operation`
holding one of the four operation names, defaulting to `"select"` when
no mode-setting call was ever made. -/
theorem body_table_and_operation_fields (b : QueryBuilder) :
    List.lookup "table" b.buildPayload = some (.str b.tableName)
    ∧ List.lookup "operation" b.buildPayload = some (.str ((b.operation.getD .select).name))
    ∧ ((b.operation.getD .select).name
        ∈ (["select", "insert", "update", "delete"] : List String))
    ∧ (b.operation = none →
        List.lookup "operation" b.buildPayload = some (.str "select")) := by
  refine ⟨?_, ?_, ?_, fun h => ?_⟩
  · simp [QueryBuilder.buildPayload, List.lookup]
  · simp [QueryBuilder.buildPayload, List.lookup]
  · rcases hop : b.operation with _ | op
    · simp [Operation.name]
    · cases op <;> simp [Operation.name]
  · simp [QueryBuilder.buildPayload, h, List.lookup, Operation.name]

/-- Witness for C4 (amended) at a fresh builder, whose mode is unset. -/
theorem body_table_and_operation_fields_witness :
    (supabaseFrom "books").operation = none
    ∧ List.lookup "table" (supabaseFrom "books").buildPayload = some (.str "books")
    ∧ List.lookup "operation" (supabaseFrom "books").buildPayload = some (.str "select") :=
  ⟨rfl, (body_table_and_operation_fields (supabaseFrom "books")).1,
   (body_table_and_operation_fields (supabaseFrom "books")).2.2.2 rfl⟩

/-- C5 counterexample: after `eq` then `insert`, the builder still holds
the stale filter, yet the serialized insert body has no `filters` field,
so the stale filters do not appear in the request body. -/
theorem insert_after_eq_filters_absent_from_body :
    (((supabaseFrom "books").eq "a" (.num 1)).insert
        (.inl [("title", .str "x")])).filtersList = [⟨"a", .eq, .num 1⟩]
    ∧ List.lookup "filters"
        ((((supabaseFrom "books").eq "a" (.num 1)).insert
            (.inl [("title", .str "x")])).buildPayload) = none :=
  ⟨rfl, rfl⟩

/-- C5 (amended): `insert()` after filter calls overrides the mode to
insert without clearing the accumulated filters from the builder state,
but the serialized insert request body omits the `filters` field
entirely, so the stale filters do not appear in it. -/
theorem insert_overrides_mode_keeps_filters_in_state_only (b : QueryBuilder)
    (vs : List (String × JsonValue) ⊕ List (List (String × JsonValue))) :
    (b.insert vs).operation = some .insert
    ∧ (b.insert vs).filtersList = b.filtersList
    ∧ List.lookup "filters" (b.insert vs).buildPayload = none := by
  refine ⟨rfl, rfl, ?_⟩
  by_cases hs : b.selectClause = "" <;>
    cases vs <;>
      simp [QueryBuilder.buildPayload, QueryBuilder.insert, hs, List.lookup]

/-- C6 counterexample: an insert whose selector was never customized still
serializes the default selector — the body contains `select: "*"`, not
only the `values` field alongside `table` and `operation`. -/
theorem insert_body_includes_default_selector :
    ((supabaseFrom "books").insert (.inl [("title", .str "x")])).selectClause = "*"
    ∧ List.lookup "select"
        (((supabaseFrom "books").insert (.inl [("title", .str "x")])).buildPayload)
      = some (.str "*") :=
  ⟨rfl, rfl⟩

/-- C6 (amended): in insert mode the selector field (`select`) is included
in the serialized body exactly when the selector string is non-empty; the
default selector is `"*"`, which is non-empty, so the field is present
even when `select()` was never called, and it is omitted only when a
`select("")` call emptied it. -/
theorem insert_selector_included_iff_nonempty (b : QueryBuilder)
    (h : b.operation = some .insert) :
    List.lookup "select" b.buildPayload
      = if b.selectClause = "" then none else some (.str b.selectClause) := by
  by_cases hs : b.selectClause = "" <;>
    rcases hv : b.insertValues with _ | w <;>
      simp [QueryBuilder.buildPayload, h, hv, hs, List.lookup]

/-- Witness for C6 (amended) at a concrete insert with the default
selector. -/
theorem insert_selector_included_iff_nonempty_witness :
    ((supabaseFrom "books").insert (.inl [("title", JsonValue.str "x")])).operation
      = some Operation.insert
    ∧ List.lookup "select"
        (((supabaseFrom "books").insert (.inl [("title", JsonValue.str "x")])).buildPayload)
      = if ((supabaseFrom "books").insert (.inl [("title", JsonValue.str "x")])).selectClause = ""
        then none
        else some (.str ((supabaseFrom "books").insert
            (.inl [("title", JsonValue.str "x")])).selectClause) :=
  ⟨rfl, insert_selector_included_iff_nonempty _ rfl⟩

/-- C7 counterexample: a network-level fetch failure thrown as a
`TypeError` whose message is "Load failed" (the text a WebKit host uses
when the fetch cannot complete) is re-thrown with its raw message, not
surfaced as the generic connectivity message. -/
theorem network_failure_raw_message_leaks :
    ((supabaseFrom "books").execute ⟨some "p", some "https://s"⟩ none
        (.failure ⟨true, "Load failed"⟩)).outcome
      = .error (.rethrown ⟨true, "Load failed"⟩)
    ∧ ExecError.message (.rethrown ⟨true, "Load failed"⟩) = "Load failed"
    ∧ "Load failed" ≠ networkErrorMessage :=
  ⟨rfl, rfl, by decide⟩

/-- C7 (amended): a fetch-level failure is surfaced as the generic
user-safe connectivity message exactly when it is a `TypeError` with
message exactly "Failed to fetch"; any other failure shape is re-thrown
with its raw message text. -/
theorem network_failure_classification (b : QueryBuilder) (env : Env)
    (stored : Option StoredSession) (e : FetchError)
    (hp : envMissing env.projectId = false) (hu : envMissing env.backendUrl = false) :
    (b.execute env stored (.failure e)).outcome
      = .error (if e.isTypeError && e.message == "Failed to fetch"
                then .network
                else .rethrown e)
    ∧ ExecError.message .network = networkErrorMessage
    ∧ ExecError.message (.rethrown e) = e.message := by
  refine ⟨?_, rfl, rfl⟩
  unfold QueryBuilder.execute
  rw [if_neg (by simp [hp]), if_neg (by simp [hu])]
  by_cases hc : (e.isTypeError && e.message == "Failed to fetch") = true <;> simp [hc]

/-- Witness for C7 (amended) at the canonical "Failed to fetch" failure. -/
theorem network_failure_classification_witness :
    envMissing (Env.mk (some "p") (some "https://s")).projectId = false
    ∧ envMissing (Env.mk (some "p") (some "https://s")).backendUrl = false
    ∧ ((supabaseFrom "books").execute ⟨some "p", some "https://s"⟩ none
          (.failure ⟨true, "Failed to fetch"⟩)).outcome
        = .error (if (true : Bool) && ("Failed to fetch" == "Failed to fetch")
                  then .network
                  else .rethrown ⟨true, "Failed to fetch"⟩)
    ∧ ExecError.message .network = networkErrorMessage :=
  ⟨by decide, by decide,
   (network_failure_classification (supabaseFrom "books") ⟨some "p", some "https://s"⟩ none
      ⟨true, "Failed to fetch"⟩ (by decide) (by decide)).1,
   (network_failure_classification (supabaseFrom "books") ⟨some "p", some "https://s"⟩ none
      ⟨true, "Failed to fetch"⟩ (by decide) (by decide)).2.1⟩

/-- Awaiting the builder settles exactly as the delegated `execute()`
call does, with the same effects. -/
lemma awaited_eq_execute (b : QueryBuilder) (env : Env) (stored : Option StoredSession)
    (fetched : FetchOutcome) :
    b.awaited env stored fetched = b.execute env stored fetched := by
  unfold QueryBuilder.awaited QueryBuilder.thenMethod
  cases hr : b.execute env stored fetched with
  | mk o eff => cases o <;> rfl

/-- C8: on a successful 2xx transport result, the explicit `execute()`
entry point and the thenable path (awaiting the builder, which calls
`then` with the promise's resolve/reject continuations) settle to the
identical parsed JSON body, and each resolution dispatches the transport
exactly once — `then` delegates to a fresh `execute()` call, with no
memoization or duplicate dispatch. -/
theorem execute_and_thenable_agree_single_dispatch (b : QueryBuilder) (env : Env)
    (stored : Option StoredSession) (status : Nat) (statusText : String) (v : JsonValue)
    (hp : envMissing env.projectId = false) (hu : envMissing env.backendUrl = false)
    (hok : 200 ≤ status ∧ status ≤ 299) :
    (b.execute env stored (.response status statusText (.ok v))).outcome = .ok v
    ∧ (b.awaited env stored (.response status statusText (.ok v)))
        = b.execute env stored (.response status statusText (.ok v))
    ∧ (b.execute env stored (.response status statusText (.ok v))).effects.requests.length = 1
    ∧ (b.awaited env stored (.response status statusText (.ok v))).effects.requests.length = 1 := by
  have hout : (b.execute env stored (.response status statusText (.ok v))).outcome = .ok v := by
    unfold QueryBuilder.execute
    rw [if_neg (by simp [hp]), if_neg (by simp [hu])]
    simp [hok]
  have hlen : (b.execute env stored (.response status statusText (.ok v))).effects.requests.length
      = 1 := by
    rw [execute_requests_eq b env stored _ hp hu]
    rfl
  have hawait := awaited_eq_execute b env stored (.response status statusText (.ok v))
  exact ⟨hout, hawait, hlen, by rw [hawait]; exact hlen⟩

/-- Witness for C8 at a 200 response with body `{"rows":[{"id":1}]}`. -/
theorem execute_and_thenable_agree_single_dispatch_witness :
    envMissing (Env.mk (some "p") (some "https://s")).projectId = false
    ∧ envMissing (Env.mk (some "p") (some "https://s")).backendUrl = false
    ∧ (200 ≤ 200 ∧ 200 ≤ 299)
    ∧ ((supabaseFrom "books").execute ⟨some "p", some "https://s"⟩ none
          (.response 200 "OK" (.ok (.obj [("rows", .arr [.obj [("id", .num 1)]])])))).outcome
        = .ok (.obj [("rows", .arr [.obj [("id", .num 1)]])])
    ∧ ((supabaseFrom "books").awaited ⟨some "p", some "https://s"⟩ none
          (.response 200 "OK" (.ok (.obj [("rows", .arr [.obj [("id", .num 1)]])]))))
        = (supabaseFrom "books").execute ⟨some "p", some "https://s"⟩ none
            (.response 200 "OK" (.ok (.obj [("rows", .arr [.obj [("id", .num 1)]])]))) := by
  have h := execute_and_thenable_agree_single_dispatch (supabaseFrom "books")
    ⟨some "p", some "https://s"⟩ none 200 "OK"
    (.obj [("rows", .arr [.obj [("id", .num 1)]])])
    (by decide) (by decide) (by decide)
  exact ⟨by decide, by decide, by decide, h.1, h.2.1⟩

/-- C9: when the stored session record parses but holds no `access_token`
field, the execution behaves exactly as with no stored record at all: no
`Authorization` header is attached, the single request is still
dispatched, and the settled outcome is whatever the transport outcome
dictates. -/
theorem tokenless_session_sends_without_auth_header (b : QueryBuilder) (env : Env)
    (fetched : FetchOutcome)
    (hp : envMissing env.projectId = false) (hu : envMissing env.backendUrl = false) :
    b.execute env (some (.parsed none)) fetched = b.execute env none fetched
    ∧ (∀ req ∈ (b.execute env (some (.parsed none)) fetched).effects.requests,
        List.lookup "Authorization" req.headers = none)
    ∧ (b.execute env (some (.parsed none)) fetched).effects.requests.length = 1 := by
  refine ⟨rfl, ?_, ?_⟩
  · intro req hreq
    rw [execute_requests_eq b env _ fetched hp hu] at hreq
    simp only [List.mem_singleton] at hreq
    subst hreq
    rfl
  · rw [execute_requests_eq b env _ fetched hp hu]
    rfl

/-- Witness for C9 at a concrete 200 response. -/
theorem tokenless_session_sends_without_auth_header_witness :
    envMissing (Env.mk (some "p") (some "https://s")).projectId = false
    ∧ envMissing (Env.mk (some "p") (some "https://s")).backendUrl = false
    ∧ (supabaseFrom "books").execute ⟨some "p", some "https://s"⟩ (some (.parsed none))
          (.response 200 "OK" (.ok .null))
        = (supabaseFrom "books").execute ⟨some "p", some "https://s"⟩ none
            (.response 200 "OK" (.ok .null))
    ∧ ((supabaseFrom "books").execute ⟨some "p", some "https://s"⟩ (some (.parsed none))
          (.response 200 "OK" (.ok .null))).effects.requests.length = 1 := by
  have h := tokenless_session_sends_without_auth_header (supabaseFrom "books")
    ⟨some "p", some "https://s"⟩ (.response 200 "OK" (.ok .null)) (by decide) (by decide)
  exact ⟨by decide, by decide, h.1, h.2.2⟩

/-- C10: a delete with no accumulated filters serializes a body whose
`filters` field is the empty array, and the request is dispatched to the
transport with that body — there is no client-side guard against the
unfiltered delete. -/
theorem unfiltered_delete_dispatched (b : QueryBuilder) (env : Env)
    (stored : Option StoredSession) (fetched : FetchOutcome)
    (hf : b.filtersList = [])
    (hp : envMissing env.projectId = false) (hu : envMissing env.backendUrl = false) :
    List.lookup "filters" b.delete.buildPayload = some (.arr [])
    ∧ List.lookup "operation" b.delete.buildPayload = some (.str "delete")
    ∧ (b.delete.execute env stored fetched).effects.requests
        = [⟨env.backendUrl.getD "" ++ "/api/projects/" ++ env.projectId.getD "" ++ "/query",
            ("Content-Type", "application/json") :: sessionAuthHeader stored,
            b.delete.buildPayload⟩] := by
  refine ⟨?_, ?_, execute_requests_eq _ env stored fetched hp hu⟩
  · simp [QueryBuilder.buildPayload, QueryBuilder.delete, hf, List.lookup]
  · simp [QueryBuilder.buildPayload, QueryBuilder.delete, List.lookup, Operation.name]

/-- Witness for C10 at a fresh builder with `delete()` and no filters. -/
theorem unfiltered_delete_dispatched_witness :
    (supabaseFrom "books").filtersList = []
    ∧ envMissing (Env.mk (some "p") (some "https://s")).projectId = false
    ∧ envMissing (Env.mk (some "p") (some "https://s")).backendUrl = false
    ∧ List.lookup "filters" (supabaseFrom "books").delete.buildPayload = some (.arr [])
    ∧ ((supabaseFrom "books").delete.execute ⟨some "p", some "https://s"⟩ none
          (.response 200 "OK" (.ok .null))).effects.requests
        = [⟨"https://s" ++ "/api/projects/" ++ "p" ++ "/query",
            [("Content-Type", "application/json")],
            (supabaseFrom "books").delete.buildPayload⟩] := by
  have h := unfiltered_delete_dispatched (supabaseFrom "books") ⟨some "p", some "https://s"⟩
    none (.response 200 "OK" (.ok .null)) rfl (by decide) (by decide)
  exact ⟨rfl, by decide, by decide, h.1, h.2.2⟩
